import Mathlib

/-!
Verification model of the leaknote inbound routing and clarification engine.

Shallow embedding of `bot/classifier.py`, `bot/router.py`, `bot/fix_handler.py`,
`bot/db.py`, `bot/main.py` and `bot/config.py`. Text is modelled as `List Char`
(Python `str` over ASCII inputs), the database as explicit per-table lists, and
all external effects (LLM call, storage, transport) as explicit parameters or
state threading. Confidences are exact rationals; only order comparisons among
the occurring values matter, so exact rationals are a faithful stand-in for the
Python floats.
-/

/-- Model of Python `str` (ASCII fragment), as a list of characters. -/
abbrev Str := List Char

/-- ASCII lowering of one character, as Python `str.lower` acts on ASCII. -/
def lowerChar (c : Char) : Char :=
  if 65 ≤ c.toNat ∧ c.toNat ≤ 90 then Char.ofNat (c.toNat + 32) else c

/-- Model of Python `str.lower()` on ASCII text. -/
def pyLower (s : Str) : Str := s.map lowerChar

/-- Python whitespace test for `str.strip()` on ASCII text. -/
def isPySpace (c : Char) : Bool :=
  c.toNat = 32 ∨ c.toNat = 9 ∨ c.toNat = 10 ∨ c.toNat = 13 ∨ c.toNat = 11 ∨ c.toNat = 12

/-- Model of Python `str.strip()` on ASCII text. -/
def pyStrip (s : Str) : Str :=
  ((s.dropWhile isPySpace).reverse.dropWhile isPySpace).reverse

/-- First index of substring `pat` in `s` (Python `s.index(pat)` or the
`pat in s` membership test), `none` when absent. -/
def findSub (pat : Str) : Str → Option Nat
  | [] => if pat.isPrefixOf ([] : Str) then some 0 else none
  | c :: tl =>
    if pat.isPrefixOf (c :: tl) then some 0
    else (findSub pat tl).map (· + 1)

/-- A value stored in an extracted-fields dict: a string, `None`, or a list of
tag strings. -/
inductive PyVal where
  | str (s : Str)
  | null
  | list (xs : List Str)
deriving DecidableEq, Repr

/-- A Python dict of extracted fields, as an association list in insertion
order. -/
abbrev Extracted := List (String × PyVal)

/-- Model of Python `d.get(k)` on an extracted-fields dict. -/
def dictGet (d : Extracted) (k : String) : Option PyVal :=
  d.lookup k

/-- Model of Python `d[k] = v`: replace in place when the key exists, append otherwise. -/
def dictSet (d : Extracted) (k : String) (v : PyVal) : Extracted :=
  if (d.lookup k).isSome then
    d.map (fun kv => if kv.1 == k then (k, v) else kv)
  else d ++ [(k, v)]

/-- Python truthiness of a field value (`None`, `""` and `[]` are falsy). -/
def fieldTruthy : PyVal → Bool
  | .str s => !s.isEmpty
  | .null => false
  | .list xs => !xs.isEmpty

/-- Model of Python `a or b` over optional field values: keep `a` when present and
truthy, else take `b`. -/
def pyOrF (a : Option PyVal) (b : Option PyVal) : Option PyVal :=
  match a with
  | some f => if fieldTruthy f then some f else b
  | none => b

/-- Result of the Reference Parser: a storage category plus extracted fields. -/
structure RefResult where
  category : String
  extracted : Extracted
deriving DecidableEq, Repr

/-- Separator scan of the `howto:`/`snippet:` branches of `parse_reference`: try each
separator in priority order, splitting on its first occurrence. -/
def findFirstSep : List Str → Str → Option (Str × Str)
  | [], _ => none
  | sep :: rest, content =>
    match findSub sep content with
    | some idx =>
      some (pyStrip (content.take idx), pyStrip (content.drop (idx + sep.length)))
    | none => findFirstSep rest content

/-- The separator priority list of `parse_reference` for `howto:`/`snippet:`. -/
def refSeps : List Str := ["→".data, "->".data, " - ".data, ": ".data]

/-- Shared body of the `howto:`/`snippet:` branches of `parse_reference`. -/
def refSplitBranch (category : String) (content : Str) : RefResult :=
  match findFirstSep refSeps content with
  | some (t, c) => ⟨category, [("title", .str t), ("content", .str c)]⟩
  | none => ⟨category, [("title", .str (content.take 100)), ("content", .str content)]⟩

/-- Model of `classifier.parse_reference` (bot/classifier.py lines 90-164), translated
clause by clause: the prefix test runs on the lowered-then-stripped text while
the content slice runs on the original text, exactly as in the source. Only
the `decision:`, `howto:` and `snippet:` prefixes appear in the source. -/
def parse_reference (text : Str) : Option RefResult :=
  let text_lower := pyStrip (pyLower text)
  if "decision:".data.isPrefixOf text_lower then
    let content := pyStrip (text.drop 9)
    match findSub " because ".data (pyLower content) with
    | some idx =>
      let decision_part := pyStrip (content.take idx)
      let rationale_part := pyStrip (content.drop (idx + 9))
      some ⟨"decisions",
        [("title", .str (decision_part.take 100)),
         ("decision", .str decision_part),
         ("rationale", .str rationale_part)]⟩
    | none =>
      some ⟨"decisions",
        [("title", .str (content.take 100)),
         ("decision", .str content),
         ("rationale", .null)]⟩
  else if "howto:".data.isPrefixOf text_lower then
    some (refSplitBranch "howtos" (pyStrip (text.drop 6)))
  else if "snippet:".data.isPrefixOf text_lower then
    some (refSplitBranch "snippets" (pyStrip (text.drop 8)))
  else
    none

/-- Configuration from `bot/config.py`: the global default confidence threshold plus the
per-category override table. The reference environment leaves every
`CONFIDENCE_THRESHOLD*` variable unset, giving 0.6 everywhere except 0.5 for
`ideas`; these are modelled as the exact rationals 3/5 and 1/2. -/
structure Config where
  thresholds : List (String × ℚ)
  CONFIDENCE_THRESHOLD : ℚ
deriving DecidableEq, Repr

/-- Model of `Config.get_threshold`: per-category override, else the global default. -/
def Config.get_threshold (cfg : Config) (category : String) : ℚ :=
  ((cfg.thresholds.lookup category).getD cfg.CONFIDENCE_THRESHOLD)

/-- The reference configuration of `bot/config.py` with no environment
overrides. -/
def defaultConfig : Config :=
  ⟨[("people", mkRat 3 5), ("projects", mkRat 3 5), ("ideas", mkRat 1 2), ("admin", mkRat 3 5)], mkRat 3 5⟩

/-- A classifier response dict. Each component is optional because the source
reads every key with `dict.get` and a default; `none` models a missing key
(or, for `category`, an explicit `null`). -/
structure ClassResult where
  category : Option String
  confidence : Option ℚ
  extracted : Option Extracted
  tags : Option (List Str)
deriving DecidableEq, Repr

/-- A row of one of the seven category tables (`bot/db.py` `insert_record`).
Ids are globally unique and start at 1, mirroring the nonempty string ids of
the source (whose Python truthiness is always true). -/
structure RecordRow where
  table : String
  id : Nat
  fields : Extracted
deriving DecidableEq, Repr

/-- A row of `inbox_log` (`bot/db.py` `insert_inbox_log`). -/
structure LogEntry where
  id : Nat
  raw_text : Str
  destination : Option String
  record_id : Option Nat
  confidence : Option ℚ
  status : String
  message_id : String
  chat_id : String
deriving DecidableEq, Repr

/-- A row of `pending_clarifications` (`bot/db.py`
`insert_pending_clarification`). -/
structure Pending where
  id : Nat
  inbox_log_id : Nat
  message_id : String
  chat_id : String
  suggested_category : Option String
deriving DecidableEq, Repr

/-- The storage state: the category tables, `inbox_log` and
`pending_clarifications`, plus the id allocator. -/
structure DB where
  records : List RecordRow
  inbox : List LogEntry
  pending : List Pending
  nextId : Nat
deriving DecidableEq, Repr

/-- The empty database; id allocation starts at 1. -/
def emptyDB : DB := ⟨[], [], [], 1⟩

/-- Model of `db.insert_record`: insert into a category table, returning the new id. -/
def insert_record (db : DB) (table : String) (fields : Extracted) : Nat × DB :=
  (db.nextId,
   { db with records := db.records ++ [⟨table, db.nextId, fields⟩],
             nextId := db.nextId + 1 })

/-- Model of `db.delete_record`: delete by table and id. -/
def delete_record (db : DB) (table : String) (rid : Nat) : DB :=
  { db with records := db.records.filter (fun r => !(r.table == table && r.id == rid)) }

/-- Model of `db.get_record`: fetch by table and id. -/
def get_record (db : DB) (table : String) (rid : Nat) : Option RecordRow :=
  db.records.find? (fun r => r.table == table && r.id == rid)

/-- Model of `db.insert_inbox_log`: append an `inbox_log` row, returning its id. -/
def insert_inbox_log (db : DB) (raw_text : Str) (destination : Option String)
    (record_id : Option Nat) (confidence : Option ℚ) (status : String)
    (message_id chat_id : String) : Nat × DB :=
  let entry : LogEntry :=
    ⟨db.nextId, raw_text, destination, record_id, confidence, status, message_id, chat_id⟩
  (db.nextId, { db with inbox := db.inbox ++ [entry], nextId := db.nextId + 1 })

/-- Model of `db.get_inbox_log_by_event`: first `inbox_log` row with the given
transport message id. -/
def get_inbox_log_by_event (db : DB) (message_id : String) : Option LogEntry :=
  db.inbox.find? (fun e => e.message_id == message_id)

/-- Model of `db.update_inbox_log` as called by the Fix Handler: set `destination`,
`record_id` and `status` of one row. -/
def update_inbox_log (db : DB) (log_id : Nat) (destination : String)
    (record_id : Nat) (status : String) : DB :=
  { db with inbox := db.inbox.map (fun e =>
      if e.id == log_id then
        { e with destination := some destination, record_id := some record_id,
                 status := status }
      else e) }

/-- Model of `db.get_pending_by_reply_to`: the pending clarification keyed by the
message being replied to, joined with the original note raw text; the SQL
inner join yields nothing when the referenced `inbox_log` row is missing. -/
def get_pending_by_reply_to (db : DB) (message_id : String) : Option (Pending × Str) :=
  match db.pending.find? (fun p => p.message_id == message_id) with
  | none => none
  | some p =>
    match db.inbox.find? (fun e => e.id == p.inbox_log_id) with
    | none => none
    | some e => some (p, e.raw_text)

/-- Model of `db.delete_pending_clarification`: delete by id. -/
def delete_pending (db : DB) (pid : Nat) : DB :=
  { db with pending := db.pending.filter (fun p => !(p.id == pid)) }

/-- Model of `router.CATEGORY_TABLE_MAP`: category name to table name (the identity on
the seven categories). -/
def CATEGORY_TABLE_MAP : List (String × String) :=
  [("people", "people"), ("projects", "projects"), ("ideas", "ideas"),
   ("admin", "admin"), ("decisions", "decisions"), ("howtos", "howtos"),
   ("snippets", "snippets")]

/-- Model of `router.CATEGORY_DISPLAY`: category name to user-facing singular name. -/
def CATEGORY_DISPLAY : List (String × String) :=
  [("people", "person"), ("projects", "project"), ("ideas", "idea"),
   ("admin", "admin"), ("decisions", "decision"), ("howtos", "howto"),
   ("snippets", "snippet")]

/-- Model of Python `CATEGORY_DISPLAY.get(c, c)`. -/
def categoryDisplay (c : String) : String :=
  (CATEGORY_DISPLAY.lookup c).getD c

/-- Model of the tag merge of `route_message` lines 106-108: `if tags:
extracted["tags"] = tags`. -/
def mergeTags (extracted : Extracted) (tags : List Str) : Extracted :=
  if tags.isEmpty then extracted else dictSet extracted "tags" (.list tags)

/-- Model of the threshold selection of `route_message` line 111:
`Config.get_threshold(category) if category else Config.CONFIDENCE_THRESHOLD`
(Python truthiness: `None` and the empty string fall back to the default). -/
def thresholdFor (cfg : Config) (category : Option String) : ℚ :=
  match category with
  | some c => if c == "" then cfg.CONFIDENCE_THRESHOLD else cfg.get_threshold c
  | none => cfg.CONFIDENCE_THRESHOLD

/-- Model of `router.route_message` (bot/router.py lines 37-163). The classifier call
is an oracle parameter: `none` models `classify_thought` raising (any
exception), `some cl` models it returning the dict `cl`. The fire-and-forget
memory-enrichment task never touches this state. Returns the
`(category, record_id, confidence, status)` tuple and the updated storage.
On the prefix path the source indexes `CATEGORY_TABLE_MAP[category]` directly;
the `getD` default is unreachable because `parse_reference` only emits mapped
categories. -/
def route_message (cfg : Config) (classifyO : Option ClassResult) (text : Str)
    (message_id chat_id : String) (db : DB) :
    (Option String × Option Nat × Option ℚ × String) × DB :=
  match parse_reference text with
  | some ref =>
    let table := (CATEGORY_TABLE_MAP.lookup ref.category).getD ref.category
    let (record_id, db1) := insert_record db table ref.extracted
    let (_, db2) := insert_inbox_log db1 text (some ref.category) (some record_id)
      (some 1) "filed" message_id chat_id
    ((some ref.category, some record_id, some 1, "filed"), db2)
  | none =>
    match classifyO with
    | none =>
      let (_, db1) := insert_inbox_log db text none none none "needs_review"
        message_id chat_id
      ((none, none, none, "needs_review"), db1)
    | some cl =>
      let category := cl.category
      let confidence := cl.confidence.getD 0
      let extracted := mergeTags (cl.extracted.getD []) (cl.tags.getD [])
      let threshold := thresholdFor cfg category
      if confidence < threshold then
        let (_, db1) := insert_inbox_log db text category none (some confidence)
          "needs_review" message_id chat_id
        ((category, none, some confidence, "needs_review"), db1)
      else
        match category.bind (CATEGORY_TABLE_MAP.lookup ·) with
        | none =>
          let (_, db1) := insert_inbox_log db text none none (some confidence)
            "needs_review" message_id chat_id
          ((none, none, some confidence, "needs_review"), db1)
        | some table =>
          let (record_id, db1) := insert_record db table extracted
          let (_, db2) := insert_inbox_log db1 text category (some record_id)
            (some confidence) "filed" message_id chat_id
          ((category, some record_id, some confidence, "filed"), db2)

/-- Model of `fix_handler.VALID_CATEGORIES`: user-typed category word to table name. -/
def VALID_CATEGORIES : List (String × String) :=
  [("person", "people"), ("people", "people"),
   ("project", "projects"), ("projects", "projects"),
   ("idea", "ideas"), ("ideas", "ideas"),
   ("admin", "admin"),
   ("decision", "decisions"), ("decisions", "decisions"),
   ("howto", "howtos"), ("howtos", "howtos"),
   ("snippet", "snippets"), ("snippets", "snippets")]

/-- Model of Python `\w` word-character class restricted to ASCII. -/
def isWordChar (c : Char) : Bool :=
  c.isAlpha || c.isDigit || c == '_'

/-- Model of `fix_handler.parse_fix_command`: strip and lower, match the regex
`^fix:\s*(\w+)`, then look the captured word up in `VALID_CATEGORIES`. -/
def parse_fix_command (text : Str) : Option String :=
  let t := pyLower (pyStrip text)
  if "fix:".data.isPrefixOf t then
    let word := ((t.drop 4).dropWhile isPySpace).takeWhile isWordChar
    if word.isEmpty then none
    else VALID_CATEGORIES.lookup (String.mk word)
  else none

/-- The reference-category prefix table of `handle_fix` (its first
`prefix_map`, indexed directly, keys exactly the three reference
categories). -/
def refPfx (c : String) : Str :=
  if c == "decisions" then "decision:".data
  else if c == "howtos" then "howto:".data
  else "snippet:".data

/-- The dynamic-category prefix table of `handle_fix` (its second
`prefix_map`, read with `.get(new_category, "")`). -/
def dynPfx (c : String) : Str :=
  if c == "people" then "person:".data
  else if c == "projects" then "project:".data
  else if c == "ideas" then "idea:".data
  else if c == "admin" then "admin:".data
  else []

/-- Display form of the pre-fix category in `handle_fix`:
`CATEGORY_DISPLAY.get(old_category, old_category) if old_category else
"unknown"`. -/
def oldDisplay (old_category : Option String) : String :=
  match old_category with
  | some c => if c == "" then "unknown" else categoryDisplay c
  | none => "unknown"

/-- Model of `fix_handler.handle_fix` (bot/fix_handler.py lines 56-148). `classifyO` is
the oracle for the best-effort `classify_thought` re-run (`none` = it raised;
the exception is swallowed). Returns the
`(success, message, old_category_display, extracted_name)` tuple and the
updated storage. Note the source deletes the old record before attempting
re-extraction, and only updates the log entry when extraction succeeds. -/
def handle_fix (original_event_id : String) (new_category : String)
    (classifyO : Option ClassResult) (db : DB) :
    (Bool × String × Option String × Option PyVal) × DB :=
  match get_inbox_log_by_event db original_event_id with
  | none => ((false, "Couldn\x27t find the original message to fix", none, none), db)
  | some log_entry =>
    let old_category := log_entry.destination
    let old_record_id := log_entry.record_id
    let raw_text := log_entry.raw_text
    if old_category == some new_category then
      ((false, "Already filed as " ++ categoryDisplay new_category, none, none), db)
    else
      let db1 :=
        match old_record_id, old_category with
        | some rid, some cat => if cat == "" then db else delete_record db cat rid
        | _, _ => db
      if new_category == "decisions" || new_category == "howtos" || new_category == "snippets" then
        let prefixed_text := refPfx new_category ++ " ".data ++ raw_text
        match parse_reference prefixed_text with
        | some ref =>
          let extracted := ref.extracted
          let (new_record_id, db2) := insert_record db1 new_category extracted
          let extracted_name :=
            pyOrF (dictGet extracted "title")
              (pyOrF (dictGet extracted "name") (some (.str (raw_text.take 50))))
          let db3 := update_inbox_log db2 log_entry.id new_category new_record_id "fixed"
          ((true, "Fixed", some (oldDisplay old_category), extracted_name), db3)
        | none => ((false, "Couldn\x27t parse as reference", none, none), db1)
      else
        let prefixed_text := dynPfx new_category ++ " ".data ++ raw_text
        match parse_reference prefixed_text with
        | some ref =>
          let extracted :=
            match classifyO with
            | some cl => mergeTags ref.extracted (cl.tags.getD [])
            | none => ref.extracted
          let (new_record_id, db2) := insert_record db1 new_category extracted
          let extracted_name :=
            pyOrF (dictGet extracted "name")
              (pyOrF (dictGet extracted "title") (some (.str (raw_text.take 50))))
          let db3 := update_inbox_log db2 log_entry.id new_category new_record_id "fixed"
          ((true, "Fixed", some (oldDisplay old_category), extracted_name), db3)
        | none =>
          ((false, "Couldn\x27t extract data for category \x27" ++ new_category ++ "\x27",
            none, none), db1)

/-- The singular category whitelist of `handle_reply` (bot/main.py line 213). -/
def valid_categories : List String :=
  ["person", "project", "idea", "admin", "decision", "howto", "snippet"]

/-- The category-matching loop of `handle_reply` (bot/main.py lines 215-224):
first token matching as a `"<token>:"` prefix or as the exact bare token. -/
def matchCategory (text_lower : Str) : Option String :=
  valid_categories.findSome? (fun cat =>
    if (cat ++ ":").data.isPrefixOf text_lower then some cat
    else if text_lower == cat.data then some cat
    else none)

/-- Model of `LeaknoteBot.handle_reply` (bot/main.py lines 148-265), state effects
only. `resolvedOriginal` is the transport-dependent result of
`get_original_event_id` (reply-thread resolution); `classifyO` is the
classifier oracle passed on to the Router / Fix Handler. Outbound
confirmations and errors are transport effects with no storage footprint and
are not modelled. -/
def handle_reply (cfg : Config) (classifyO : Option ClassResult)
    (resolvedOriginal : Option String) (text : Str) (reply_to_id : String)
    (event_id room_id : String) (db : DB) : DB :=
  match parse_fix_command text with
  | some fix_category =>
    match resolvedOriginal with
    | none => db
    | some original_event_id => (handle_fix original_event_id fix_category classifyO db).2
  | none =>
    match get_pending_by_reply_to db reply_to_id with
    | none => db
    | some (pending, raw_text) =>
      if pyLower text == "skip".data then
        delete_pending db pending.id
      else
        let text_lower := pyStrip (pyLower text)
        let new_text :=
          match matchCategory text_lower with
          | some cat => cat.data ++ ": ".data ++ raw_text
          | none => text
        let db1 := (route_message cfg classifyO new_text event_id room_id db).2
        delete_pending db1 pending.id

/-- Parameter names of `db.insert_pending_clarification`
(bot/db.py lines 173-178), in order. -/
def insert_pending_clarification_params : List String :=
  ["inbox_log_id", "telegram_message_id", "telegram_chat_id", "suggested_category"]

/-- Keyword-argument names used at the `insert_pending_clarification` call
site in `LeaknoteBot.on_message` (bot/main.py lines 357-362), in order. -/
def on_message_pending_call_kwargs : List String :=
  ["inbox_log_id", "matrix_event_id", "matrix_room_id", "suggested_category"]

/-- Python keyword-argument binding: a call with keyword arguments `kwargs`
binds against a parameter list `params` only if every keyword names a
parameter (otherwise the call raises `TypeError` before the function body
runs). -/
def acceptsKwargs (params kwargs : List String) : Bool :=
  kwargs.all (fun k => params.contains k)

/-- Model of `classifier.MAX_RETRIES`. -/
def MAX_RETRIES : Nat := 3

/-- Model of `classifier.RETRY_DELAY` (seconds). -/
def RETRY_DELAY : Nat := 2

/-- Outcome of one completion attempt inside `classify_thought`:
success with a parsed dict, `httpx.TimeoutException`, `raise_for_status`
raising `httpx.HTTPStatusError` with the given status, `json.JSONDecodeError`
while parsing the content, or an exception of any other type. -/
inductive AttemptResult where
  | ok (res : ClassResult)
  | timeout
  | httpError (status : Nat)
  | badJson
  | fatal
deriving DecidableEq, Repr

/-- The exception eventually raised by `classify_thought`. `raisedNone`
models `raise last_error` with `last_error = None` (a `TypeError` in Python);
the retry-policy theorem shows it is unreachable. -/
inductive ClassifyError where
  | timeout
  | httpError (status : Nat)
  | badJson
  | fatal
  | raisedNone
deriving DecidableEq, Repr

/-- The retryable error of an attempt, if any: timeout, 5xx, or
JSON-decoding failure. -/
def attemptRetryErr : AttemptResult → Option ClassifyError
  | .timeout => some .timeout
  | .httpError s => if 500 ≤ s then some (.httpError s) else none
  | .badJson => some .badJson
  | _ => none

/-- The immediately-propagated error of an attempt, if any: a 4xx
`HTTPStatusError` re-raised by the `else: raise`, or an exception of a type
the `except` clauses do not catch. -/
def attemptRaise : AttemptResult → Option ClassifyError
  | .httpError s => if 500 ≤ s then none else some (.httpError s)
  | .fatal => some .fatal
  | _ => none

/-- The error for the final `raise last_error`. -/
def lastErrOr : Option ClassifyError → ClassifyError
  | some e => e
  | none => .raisedNone

/-- Terminal outcome of a `classify_thought` run: the parsed dict returned,
or the exception raised. -/
inductive ClassifyOutcome where
  | ok (res : ClassResult)
  | error (e : ClassifyError)
deriving DecidableEq, Repr

/-- Result of a `classify_thought` run: the returned dict or raised error,
the number of attempts performed, and the backoff sleeps in order. -/
structure ClassifyRun where
  outcome : ClassifyOutcome
  attempts : Nat
  sleeps : List Nat
deriving DecidableEq, Repr

/-- The `for attempt in range(MAX_RETRIES)` loop of `classify_thought`
(bot/classifier.py lines 40-87). `o` gives the outcome of each attempt,
`remaining` the iterations left, `attempt` the loop index, `last` the
`last_error` variable, and `sleeps` the backoff sleeps so far (reversed). A
retryable failure sleeps `RETRY_DELAY * (attempt + 1)` only when
`attempt < MAX_RETRIES - 1`, exactly as in the source. -/
def classifyAux (o : Nat → AttemptResult) :
    Nat → Nat → Option ClassifyError → List Nat → ClassifyRun
  | 0, attempt, last, sleeps => ⟨.error (lastErrOr last), attempt, sleeps.reverse⟩
  | remaining + 1, attempt, _last, sleeps =>
    match o attempt with
    | .ok res => ⟨.ok res, attempt + 1, sleeps.reverse⟩
    | .timeout =>
      let sleeps1 := if attempt + 1 < MAX_RETRIES then
        RETRY_DELAY * (attempt + 1) :: sleeps else sleeps
      classifyAux o remaining (attempt + 1) (some .timeout) sleeps1
    | .httpError s =>
      if 500 ≤ s then
        let sleeps1 := if attempt + 1 < MAX_RETRIES then
          RETRY_DELAY * (attempt + 1) :: sleeps else sleeps
        classifyAux o remaining (attempt + 1) (some (.httpError s)) sleeps1
      else ⟨.error (.httpError s), attempt + 1, sleeps.reverse⟩
    | .badJson =>
      let sleeps1 := if attempt + 1 < MAX_RETRIES then
        RETRY_DELAY * (attempt + 1) :: sleeps else sleeps
      classifyAux o remaining (attempt + 1) (some .badJson) sleeps1
    | .fatal => ⟨.error .fatal, attempt + 1, sleeps.reverse⟩

/-- Model of `classifier.classify_thought` as a run over the per-attempt outcomes. -/
def classify_thought (o : Nat → AttemptResult) : ClassifyRun :=
  classifyAux o MAX_RETRIES 0 none []

/-- A category record referenced from an inbox row exists in its table. -/
def recordExists (db : DB) (table : String) (rid : Nat) : Bool :=
  db.records.any (fun r => r.table == table && r.id == rid)

/-- The spec invariant on one `inbox_log` row: `filed` rows reference a live
record of their destination table; `needs_review` rows have no record. -/
def entryOk (db : DB) (e : LogEntry) : Bool :=
  if e.status == "filed" then
    match e.destination, e.record_id with
    | some d, some r => recordExists db d r
    | _, _ => false
  else if e.status == "needs_review" then
    e.record_id == none
  else true

/-- The spec invariant over the whole inbox log. -/
def dbInv (db : DB) : Bool :=
  db.inbox.all (entryOk db)

/-- A classifier result filing an ideas note with confidence 0.8. -/
def ideasClassified : ClassResult :=
  ⟨some "ideas", some (mkRat 4 5), some [("title", .str "Build automated tests".data)], some []⟩

/-- Storage after routing the unprefixed note `Build automated tests`
(message id `m2`) which the classifier filed under `ideas` with
confidence 0.8. -/
def ideasDB : DB :=
  (route_message defaultConfig (some ideasClassified)
    "Build automated tests".data "m2" "c1" emptyDB).2

/-- The `inbox_log` row of `ideasDB`. -/
def ideasEntry : LogEntry :=
  ⟨2, "Build automated tests".data, some "ideas", some 1, some (mkRat 4 5), "filed", "m2", "c1"⟩

/-- Storage after routing the prefixed note
`decision: Use pytest because it works` (message id `m1`). -/
def decisionDB : DB :=
  (route_message defaultConfig none
    "decision: Use pytest because it works".data "m1" "c1" emptyDB).2

/-- A pending clarification replying to clarification message `clarif1`,
attached to a `needs_review` note, for the reply-handling witness. -/
def pendingEntry : Pending := ⟨5, 2, "clarif1", "room1", some "ideas"⟩

/-- The `needs_review` inbox row behind `pendingEntry`. -/
def reviewEntry : LogEntry :=
  ⟨2, "Build automated tests".data, some "ideas", none, some (mkRat 3 10), "needs_review", "m2", "room1"⟩

/-- Storage holding one pending clarification, for the reply-handling
witness. -/
def pendingDB : DB := ⟨[], [reviewEntry], [pendingEntry], 6⟩

/-- A run of `classify_thought` in which every attempt times out. -/
def timeoutOutcomes : Nat → AttemptResult := fun _ => .timeout

/-- A classifier result whose dict has no `confidence` key. -/
def noConfidenceResult : ClassResult :=
  ⟨some "ideas", none, some [("title", .str "x".data)], some []⟩

/-- Correctness statement for a suffix of the `classify_thought` retry loop
starting at iteration `attempt` with `remaining` iterations left and the
backoff sleeps `sleeps` already performed (in reverse): bounds on the number
of attempts, the exact backoff schedule, retry only on retryable failures,
and the returned value or raised error coming from the final attempt. -/
def AuxSpec (o : Nat → AttemptResult) (remaining attempt : Nat) (sleeps : List Nat)
    (r : ClassifyRun) : Prop :=
  (attempt ≤ r.attempts ∧ r.attempts ≤ MAX_RETRIES ∧
    (0 < remaining → attempt < r.attempts)) ∧
  (r.sleeps = sleeps.reverse ++
    (List.range' attempt (r.attempts - 1 - attempt)).map (fun i => RETRY_DELAY * (i + 1))) ∧
  (∀ i, attempt ≤ i → i + 1 < r.attempts → attemptRetryErr (o i) ≠ none) ∧
  (∀ res, r.outcome = .ok res → o (r.attempts - 1) = .ok res) ∧
  (∀ e, r.outcome = .error e →
    attemptRaise (o (r.attempts - 1)) = some e ∨
    (r.attempts = MAX_RETRIES ∧ attemptRetryErr (o (r.attempts - 1)) = some e))

/-- Valid code points keep their value through `Char.ofNat`. -/
theorem toNat_ofNat_valid (n : Nat) (h : n.isValidChar) : (Char.ofNat n).toNat = n := by
  simp [Char.ofNat, h, Char.ofNatAux, Char.toNat, UInt32.toNat, BitVec.toNat_ofNatLt]

/-- ASCII lowering neither creates nor destroys whitespace. -/
theorem isPySpace_lowerChar (c : Char) : isPySpace (lowerChar c) = isPySpace c := by
  unfold lowerChar
  split
  · rename_i h
    have hv : (c.toNat + 32).isValidChar := by left; omega
    have h1 := toNat_ofNat_valid (c.toNat + 32) hv
    simp only [isPySpace, h1, decide_eq_decide]
    have := h.1
    have := h.2
    omega
  · rfl

/-- Python lower and strip commute on ASCII text. -/
theorem pyLower_pyStrip (s : Str) : pyLower (pyStrip s) = pyStrip (pyLower s) := by
  have hpf : (isPySpace ∘ lowerChar) = isPySpace := funext isPySpace_lowerChar
  simp only [pyLower, pyStrip, List.dropWhile_map, hpf]
  rw [← List.map_reverse, List.dropWhile_map, hpf, List.map_reverse]

/-- The table-name map is the identity on its domain. -/
theorem lookup_table_self (cat v : String)
    (h : CATEGORY_TABLE_MAP.lookup cat = some v) : v = cat := by
  simp only [CATEGORY_TABLE_MAP, List.lookup] at h
  repeat' split at h
  all_goals simp_all

/-- A category with a table entry is not the empty string. -/
theorem known_cat_ne_empty (cat : String)
    (hk : (CATEGORY_TABLE_MAP.lookup cat).isSome = true) : (cat == "") = false := by
  rcases hbe : cat == "" with _ | _
  · rfl
  · exfalso
    have hce : cat = "" := by simpa using hbe
    rw [hce] at hk
    simp [CATEGORY_TABLE_MAP, List.lookup] at hk

/-- C1: the claim says all seven category prefixes are recognized by
`parse_reference`; in the source only `decision:`, `howto:` and `snippet:`
are, and each of the four dynamic-category prefixes falls through to `None`.
The inputs are the ones the repository unit tests
(`tests/unit/test_classifier.py`) expect to yield non-null results with
categories `ideas`, `people`, `projects` and `admin`. -/
theorem parse_reference_idea_prefix_unrecognized :
    parse_reference "idea: Build automated test suite".data = none ∧
    parse_reference "person: John Doe - software engineer at Acme Corp".data = none ∧
    parse_reference "project: Automated testing - implement pytest suite".data = none ∧
    parse_reference "admin: File taxes by April 15".data = none := by
  refine ⟨by decide, by decide, by decide, by decide⟩

/-- C2: the claim says a `PendingClarification` row is successfully created
whenever the Router returns `needs_review`. The call site in
`LeaknoteBot.on_message` passes keyword arguments `matrix_event_id` and
`matrix_room_id`, but `db.insert_pending_clarification` declares parameters
`telegram_message_id` and `telegram_chat_id`, so Python keyword binding
rejects the call (`TypeError`) and no row is ever inserted. -/
theorem insert_pending_clarification_call_rejected :
    acceptsKwargs insert_pending_clarification_params on_message_pending_call_kwargs = false ∧
    on_message_pending_call_kwargs.contains "matrix_event_id" = true ∧
    insert_pending_clarification_params.contains "matrix_event_id" = false ∧
    on_message_pending_call_kwargs.contains "matrix_room_id" = true ∧
    insert_pending_clarification_params.contains "matrix_room_id" = false := by
  refine ⟨by decide, by decide, by decide, by decide, by decide⟩

/-- C3: the claim says `handle_fix` to a new dynamic category re-wraps the
raw text with that category prefix, re-derives fields and succeeds. Because
`parse_reference` does not recognize the dynamic prefixes, the re-extraction
always fails and `handle_fix` returns failure after already deleting the old
record. Evaluated on the `ideas`-to-`projects` fix that the repository test
`tests/integration/test_fix_handler.py::test_fix_idea_to_project` expects to
succeed. -/
theorem handle_fix_dynamic_category_fails :
    handle_fix "m2" "projects" none ideasDB =
      ((false, "Couldn\x27t extract data for category \x27projects\x27", none, none),
       delete_record ideasDB "ideas" 1) := by
  decide

/-- C4: the claim states the invariant that every `filed` inbox entry points
to a live record. After filing `decision: Use pytest because it works` the
invariant holds; a subsequent `fix` to `ideas` deletes the decision record,
then fails to re-extract (`parse_reference` lacks the `idea:` branch) and
leaves the entry `filed` with a dangling `record_id`, falsifying the
invariant. -/
theorem filed_invariant_broken_by_failed_fix :
    dbInv decisionDB = true ∧
    (handle_fix "m1" "ideas" none decisionDB).1.1 = false ∧
    dbInv (handle_fix "m1" "ideas" none decisionDB).2 = false := by
  refine ⟨by decide, by decide, by decide⟩

/-- C5: the claim says an explicit prefix bypasses the Classifier and
`route("idea: Build automated tests", ...)` returns
`("ideas", non-null, 1.0, "filed")`. In the source `parse_reference` returns
`None` for `idea:`, so the Router consults the classifier: with the
classifier raising, the route ends `needs_review` with null category, and
with the classifier answering `admin`, the note is filed under `admin` —
the outcome depends on the classifier, so the prefix is not authoritative. -/
theorem route_message_idea_prefix_not_bypassed :
    parse_reference "idea: Build automated tests".data = none ∧
    (route_message defaultConfig none "idea: Build automated tests".data
      "m1" "c1" emptyDB).1 = (none, none, none, "needs_review") ∧
    (route_message defaultConfig (some ⟨some "admin", some 1, some [], some []⟩)
      "idea: Build automated tests".data "m1" "c1" emptyDB).1 =
      (some "admin", some 1, some 1, "filed") := by
  refine ⟨by decide, by decide, by decide⟩

/-- C9: for every inbox entry, calling `handle_fix` with a `new_category`
equal to the entry current destination returns failure with the message
`Already filed as <display name>` and leaves the storage unchanged: no
record is deleted or inserted and the log entry is not updated. -/
theorem handle_fix_same_category (eid nc : String) (o : Option ClassResult) (db : DB)
    (e : LogEntry) (h1 : get_inbox_log_by_event db eid = some e)
    (h2 : e.destination = some nc) :
    handle_fix eid nc o db =
      ((false, "Already filed as " ++ categoryDisplay nc, none, none), db) := by
  simp only [handle_fix, h1]
  have hb : (e.destination == some nc) = true := by simp [h2]
  simp [hb]

/-- C9 witness: fixing the already-`ideas` note `m2` back to `ideas`
returns the no-op failure and the unchanged storage. -/
theorem handle_fix_same_category_witness :
    handle_fix "m2" "ideas" none ideasDB =
      ((false, "Already filed as idea", none, none), ideasDB) := by
  have h := handle_fix_same_category "m2" "ideas" none ideasDB ideasEntry
    (by decide) (by decide)
  rw [h]
  rfl

/-- C10: when the classifier result dict lacks a `confidence` key,
`route_message` treats the confidence as 0.0, and for any strictly positive
applicable threshold the note is logged `needs_review` with a null
`record_id` and the returned confidence is 0.0 — the note is never filed. -/
theorem route_message_missing_confidence (cfg : Config) (cl : ClassResult) (text : Str)
    (m c : String) (db : DB)
    (hp : parse_reference text = none)
    (hc : cl.confidence = none)
    (ht : 0 < thresholdFor cfg cl.category) :
    route_message cfg (some cl) text m c db =
      ((cl.category, none, some 0, "needs_review"),
       (insert_inbox_log db text cl.category none (some 0) "needs_review" m c).2) := by
  simp only [route_message, hp, hc, Option.getD_none]
  rw [if_pos ht]

/-- C10 witness: a classifier result without `confidence` on the reference
configuration ends `needs_review` with confidence 0. -/
theorem route_message_missing_confidence_witness :
    route_message defaultConfig (some noConfidenceResult) "hello world".data "mw" "cw" emptyDB =
      ((some "ideas", none, some 0, "needs_review"),
       (insert_inbox_log emptyDB "hello world".data (some "ideas") none (some 0)
         "needs_review" "mw" "cw").2) := by
  have h := route_message_missing_confidence defaultConfig noConfidenceResult
    "hello world".data "mw" "cw" emptyDB (by decide) (by decide) (by decide)
  rw [h]
  rfl

/-- C6: for a classifier result with a known category, `route_message`
compares its confidence against the per-category threshold — 0.5 for
`ideas` and 0.6 for every other category in the reference configuration:
below the threshold it logs `destination=category, record_id=null,
status=needs_review` and returns `(category, None, confidence,
needs_review)`; at or above it, it inserts the record and returns `filed`
with the fresh non-null record id. -/
theorem route_message_confidence_gate (text : Str) (m c : String) (db : DB)
    (cat : String) (conf : ℚ) (ext : Extracted) (tags : List Str)
    (hp : parse_reference text = none)
    (hk : (CATEGORY_TABLE_MAP.lookup cat).isSome = true) :
    Config.get_threshold defaultConfig "ideas" = mkRat 1 2 ∧
    (∀ c2, c2 ≠ "ideas" → Config.get_threshold defaultConfig c2 = mkRat 3 5) ∧
    (conf < defaultConfig.get_threshold cat →
      route_message defaultConfig (some ⟨some cat, some conf, some ext, some tags⟩) text m c db =
        ((some cat, none, some conf, "needs_review"),
         (insert_inbox_log db text (some cat) none (some conf) "needs_review" m c).2)) ∧
    (defaultConfig.get_threshold cat ≤ conf →
      route_message defaultConfig (some ⟨some cat, some conf, some ext, some tags⟩) text m c db =
        ((some cat, some db.nextId, some conf, "filed"),
         (insert_inbox_log (insert_record db cat (mergeTags ext tags)).2 text (some cat)
           (some db.nextId) (some conf) "filed" m c).2)) := by
  have hne := known_cat_ne_empty cat hk
  have hth : thresholdFor defaultConfig (some cat) = defaultConfig.get_threshold cat := by
    simp [thresholdFor, hne]
  obtain ⟨v, hv⟩ := Option.isSome_iff_exists.mp hk
  have hveq := lookup_table_self cat v hv
  subst hveq
  refine ⟨by decide, ?_, ?_, ?_⟩
  · intro c2 hne2
    simp only [Config.get_threshold, defaultConfig, List.lookup]
    repeat' split
    all_goals simp_all
  · intro hlt
    simp only [route_message, hp, hth, Option.getD_some]
    rw [if_pos hlt]
  · intro hge
    simp only [route_message, hp, hth, Option.getD_some]
    rw [if_neg (not_lt.2 hge)]
    simp only [Option.some_bind, hv]
    rfl

/-- C6 witness: with the reference thresholds, an `ideas` result at
confidence 0.3 ends `needs_review` with no record and an `ideas` result at
confidence 0.8 is filed with record id 1. -/
theorem route_message_confidence_gate_witness :
    (route_message defaultConfig (some ⟨some "ideas", some (mkRat 3 10), some [], some []⟩)
        "hello world".data "mw" "cw" emptyDB).1 =
      (some "ideas", none, some (mkRat 3 10), "needs_review") ∧
    (route_message defaultConfig (some ⟨some "ideas", some (mkRat 4 5), some [], some []⟩)
        "hello world".data "mw" "cw" emptyDB).1 =
      (some "ideas", some 1, some (mkRat 4 5), "filed") := by
  constructor
  · have h := (route_message_confidence_gate "hello world".data "mw" "cw" emptyDB
      "ideas" (mkRat 3 10) [] [] (by decide) (by decide)).2.2.1 (by decide)
    rw [h]
  · have h := (route_message_confidence_gate "hello world".data "mw" "cw" emptyDB
      "ideas" (mkRat 4 5) [] [] (by decide) (by decide)).2.2.2 (by decide)
    rw [h]
    rfl

/-- C8: for every pending clarification, a reply of exactly `skip`
(case-insensitive) deletes the `PendingClarification` without touching the
record tables or the inbox log (so no Router call is visible in state), and
a reply that is a bare recognized singular category token re-routes the
original note raw text prefixed with that token — not the reply text — and
deletes the `PendingClarification` regardless of the routing outcome. -/
theorem handle_reply_clarification_resolution (cfg : Config) (o : Option ClassResult)
    (ro : Option String) (text : Str) (rid eid room : String) (db : DB)
    (p : Pending) (raw : Str)
    (hp : get_pending_by_reply_to db rid = some (p, raw)) :
    (pyLower text = "skip".data →
      handle_reply cfg o ro text rid eid room db = delete_pending db p.id ∧
      (delete_pending db p.id).records = db.records ∧
      (delete_pending db p.id).inbox = db.inbox) ∧
    (∀ cat, cat ∈ valid_categories → pyStrip (pyLower text) = cat.data →
      handle_reply cfg o ro text rid eid room db =
        delete_pending (route_message cfg o (cat.data ++ ": ".data ++ raw) eid room db).2 p.id) := by
  constructor
  · intro hskip
    have hfix : parse_fix_command text = none := by
      unfold parse_fix_command
      rw [pyLower_pyStrip, hskip]
      rfl
    have hbs : (pyLower text == "skip".data) = true := by simp [hskip]
    refine ⟨?_, rfl, rfl⟩
    simp only [handle_reply, hfix, hp, hbs, if_true]
  · intro cat hmem hcat
    simp only [valid_categories, List.mem_cons, List.not_mem_nil, or_false] at hmem
    have hskipf : (pyLower text == "skip".data) = false := by
      rcases hb : pyLower text == "skip".data with _ | _
      · rfl
      · exfalso
        have hEq : pyLower text = "skip".data := by simpa using hb
        rw [hEq] at hcat
        rcases hmem with rfl | rfl | rfl | rfl | rfl | rfl | rfl <;>
          exact absurd hcat (by decide)
    have hfix : parse_fix_command text = none := by
      unfold parse_fix_command
      rw [pyLower_pyStrip, hcat]
      rcases hmem with rfl | rfl | rfl | rfl | rfl | rfl | rfl <;> rfl
    have hmc : matchCategory (pyStrip (pyLower text)) = some cat := by
      rw [hcat]
      rcases hmem with rfl | rfl | rfl | rfl | rfl | rfl | rfl <;> rfl
    simp only [handle_reply, hfix, hp, hskipf, Bool.false_eq_true, if_false, hmc]

/-- C8 witness: replying `skip` to the pending clarification of `pendingDB`
deletes exactly that pending row. -/
theorem handle_reply_clarification_resolution_witness :
    handle_reply defaultConfig none none "skip".data "clarif1" "e9" "room1" pendingDB =
      delete_pending pendingDB 5 := by
  have h := (handle_reply_clarification_resolution defaultConfig none none "skip".data
    "clarif1" "e9" "room1" pendingDB pendingEntry "Build automated tests".data
    (by decide)).1 (by decide)
  exact h.1

/-- Transfer of the loop specification across one retryable iteration of the
`classify_thought` loop. -/
theorem retry_step (o : Nat → AttemptResult) (rem attempt : Nat) (e0 : ClassifyError)
    (sleeps : List Nat) (r : ClassifyRun)
    (h3 : attempt + (rem + 1) = MAX_RETRIES)
    (hre : attemptRetryErr (o attempt) = some e0)
    (ih : AuxSpec o rem (attempt + 1)
      (if attempt + 1 < MAX_RETRIES then RETRY_DELAY * (attempt + 1) :: sleeps else sleeps) r) :
    AuxSpec o (rem + 1) attempt sleeps r := by
  have hM : MAX_RETRIES = 3 := rfl
  obtain ⟨⟨ha1, ha2, ha3⟩, hs, hr, hok, herr⟩ := ih
  refine ⟨⟨by omega, ha2, fun _ => by omega⟩, ?_, ?_, hok, herr⟩
  · rw [hs]
    by_cases hlt : attempt + 1 < MAX_RETRIES
    · rw [if_pos hlt]
      have hklt : attempt + 1 < r.attempts := ha3 (by omega)
      have hk : r.attempts - 1 - attempt = (r.attempts - 1 - (attempt + 1)) + 1 := by omega
      rw [hk, List.range'_succ]
      simp [List.append_assoc]
    · rw [if_neg hlt]
      have hat : r.attempts = 3 := by omega
      have hae : attempt = 2 := by omega
      rw [hat, hae]
      simp
  · intro i hi1 hi2
    rcases Nat.eq_or_lt_of_le hi1 with heq | hgt
    · subst heq
      simp [hre]
    · exact hr i hgt hi2

/-- Correctness of every suffix of the `classify_thought` retry loop, by
induction on the remaining iterations. -/
theorem classifyAux_spec (o : Nat → AttemptResult) :
    ∀ remaining attempt last sleeps,
    attempt + remaining = MAX_RETRIES →
    ((attempt = 0 ∧ last = none) ∨
      (0 < attempt ∧ ∃ e0, last = some e0 ∧ attemptRetryErr (o (attempt - 1)) = some e0)) →
    AuxSpec o remaining attempt sleeps (classifyAux o remaining attempt last sleeps) := by
  have hM : MAX_RETRIES = 3 := rfl
  intro remaining
  induction remaining with
  | zero =>
    intro attempt last sleeps h3 hinv
    simp only [classifyAux]
    dsimp only [AuxSpec]
    refine ⟨⟨le_refl _, by omega, by omega⟩, ?_, ?_, ?_, ?_⟩
    · have h0 : attempt - 1 - attempt = 0 := by omega
      simp [h0]
    · intro i hi1 hi2
      omega
    · intro res hres
      exact absurd hres (by simp)
    · intro e he
      rcases hinv with ⟨h0, _⟩ | ⟨hpos, e0, hl, hre⟩
      · omega
      · right
        refine ⟨by omega, ?_⟩
        rw [hl] at he
        simp only [lastErrOr] at he
        simp at he
        subst he
        simpa using hre
  | succ rem ih =>
    intro attempt last sleeps h3 hinv
    rcases ho : o attempt with res | _ | s | _ | _
    · simp only [classifyAux, ho]
      dsimp only [AuxSpec]
      refine ⟨⟨by omega, by omega, fun _ => by omega⟩, ?_, ?_, ?_, ?_⟩
      · have h0 : attempt + 1 - 1 - attempt = 0 := by omega
        simp [h0]
      · intro i hi1 hi2
        omega
      · intro res2 hres
        simp at hres
        subst hres
        simpa using ho
      · intro e he
        exact absurd he (by simp)
    · simp only [classifyAux, ho]
      exact retry_step o rem attempt .timeout sleeps _ h3
        (by simp [attemptRetryErr, ho])
        (ih (attempt + 1) (some .timeout) _ (by omega)
          (Or.inr ⟨by omega, .timeout, rfl, by simpa [attemptRetryErr] using congrArg attemptRetryErr ho⟩))
    · simp only [classifyAux, ho]
      by_cases h5 : 500 ≤ s
      · rw [if_pos h5]
        exact retry_step o rem attempt (.httpError s) sleeps _ h3
          (by simp [attemptRetryErr, ho, h5])
          (ih (attempt + 1) (some (.httpError s)) _ (by omega)
            (Or.inr ⟨by omega, .httpError s, rfl, by simp [attemptRetryErr, ho, h5]⟩))
      · rw [if_neg h5]
        dsimp only [AuxSpec]
        refine ⟨⟨by omega, by omega, fun _ => by omega⟩, ?_, ?_, ?_, ?_⟩
        · have h0 : attempt + 1 - 1 - attempt = 0 := by omega
          simp [h0]
        · intro i hi1 hi2
          omega
        · intro res hres
          exact absurd hres (by simp)
        · intro e he
          simp at he
          subst he
          left
          simp [attemptRaise, ho, h5]
    · simp only [classifyAux, ho]
      exact retry_step o rem attempt .badJson sleeps _ h3
        (by simp [attemptRetryErr, ho])
        (ih (attempt + 1) (some .badJson) _ (by omega)
          (Or.inr ⟨by omega, .badJson, rfl, by simp [attemptRetryErr, ho]⟩))
    · simp only [classifyAux, ho]
      dsimp only [AuxSpec]
      refine ⟨⟨by omega, by omega, fun _ => by omega⟩, ?_, ?_, ?_, ?_⟩
      · have h0 : attempt + 1 - 1 - attempt = 0 := by omega
        simp [h0]
      · intro i hi1 hi2
        omega
      · intro res hres
        exact absurd hres (by simp)
      · intro e he
        simp at he
        subst he
        left
        simp [attemptRaise, ho]

/-- C7: `classify_thought` performs at most `MAX_RETRIES = 3` attempts,
sleeps exactly `RETRY_DELAY * attempt_index` between consecutive attempts,
continues past an attempt only when it failed with a timeout, a 5xx status
or a JSON-decoding failure, returns only what the final attempt returned,
and raises only the error of the final attempt: a 4xx or uncaught exception
immediately, or — when all retries are exhausted — the last retryable error
encountered, never a silent default (`raisedNone` is unreachable). -/
theorem classify_thought_retry_policy (o : Nat → AttemptResult) :
    (1 ≤ (classify_thought o).attempts ∧ (classify_thought o).attempts ≤ MAX_RETRIES) ∧
    ((classify_thought o).sleeps =
      (List.range ((classify_thought o).attempts - 1)).map (fun i => RETRY_DELAY * (i + 1))) ∧
    (∀ i, i + 1 < (classify_thought o).attempts → attemptRetryErr (o i) ≠ none) ∧
    (∀ res, (classify_thought o).outcome = .ok res →
      o ((classify_thought o).attempts - 1) = .ok res) ∧
    (∀ e, (classify_thought o).outcome = .error e →
      attemptRaise (o ((classify_thought o).attempts - 1)) = some e ∨
      ((classify_thought o).attempts = MAX_RETRIES ∧
        attemptRetryErr (o ((classify_thought o).attempts - 1)) = some e)) := by
  simp only [classify_thought]
  have h := classifyAux_spec o MAX_RETRIES 0 none [] (by omega) (Or.inl ⟨rfl, rfl⟩)
  obtain ⟨⟨_, h2, h3⟩, hs, hr, hok, herr⟩ := h
  refine ⟨⟨h3 (by simp [MAX_RETRIES]), h2⟩, ?_, fun i hi => hr i (Nat.zero_le i) hi, hok, herr⟩
  rw [hs]
  simp [List.range_eq_range']

/-- C7 witness: three timeouts exhaust the retries, re-raise the timeout and
sleep 2 then 4 seconds. -/
theorem classify_thought_retry_policy_witness :
    classify_thought timeoutOutcomes =
      ⟨.error .timeout, 3, [2, 4]⟩ ∧
    (classify_thought timeoutOutcomes).sleeps =
      (List.range ((classify_thought timeoutOutcomes).attempts - 1)).map
        (fun i => RETRY_DELAY * (i + 1)) := by
  refine ⟨by decide, (classify_thought_retry_policy timeoutOutcomes).2.1⟩
